import Mathlib

/-!
Verification of the auto-review-responder backend (`src/backend/main.py`).

The whole program lives in one Python file.  We embed the response-generation
pipeline shallowly:

* `UserProfile` and `ReviewInput` mirror the pydantic models.
* Timestamps (`usage_reset_date`, `now`) are integers measured in days, so
  Python's `timedelta(days=30)` becomes the constant `thirty_days = 30` and
  `datetime.now() > reset_date` becomes `now > reset`.
* The Anthropic client call and `json.loads` are external collaborators; they
  enter as parameters: a `ProviderResult` (the raw text of a successful call,
  or the message of any other exception) and a parse function
  `String → Option JsonVal` (`none` models `json.JSONDecodeError`).
* Python exceptions become `Except` values; the in-memory `users_db` entry for
  the requesting user becomes an explicit `Option UserProfile` threaded through
  `generate_responses`, which returns the updated stored entry together with
  the HTTP outcome.  An entry is written back only where the Python code
  executes `users_db[user_id] = profile.dict()`.
-/

/-- `UserProfile` (main.py lines 28-37). -/
structure UserProfile where
  user_id : String
  business_name : String
  business_type : String
  tone : String := "professional"
  brand_voice : Option String := none
  signature : Option String := none
  subscription_tier : String := "free"
  usage_count : Int := 0
  usage_reset_date : Option Int := none
deriving DecidableEq

/-- `ReviewInput` (main.py lines 39-44). -/
structure ReviewInput where
  review_text : String
  rating : Int
  reviewer_name : Option String := none
  platform : String := "google"
  context : Option String := none
deriving DecidableEq

/-- JSON values, as produced by Python's `json.loads`: an object is a list of
key/value pairs (Python dict lookup becomes `List.lookup`). -/
inductive JsonVal where
  | null
  | bool (b : Bool)
  | num (n : Int)
  | str (s : String)
  | arr (elems : List JsonVal)
  | obj (fields : List (String × JsonVal))

/-- One row of the `TIER_LIMITS` table (main.py lines 55-59);
`monthly_limit = -1` means unlimited. -/
structure TierLimit where
  monthly_limit : Int
  response_count : Nat
deriving DecidableEq

/-- `TIER_LIMITS` (main.py lines 55-59); `none` models a Python `KeyError` /
`tier not in TIER_LIMITS`. -/
def TIER_LIMITS (tier : String) : Option TierLimit :=
  if tier = "free" then some ⟨10, 3⟩
  else if tier = "pro" then some ⟨500, 3⟩
  else if tier = "enterprise" then some ⟨-1, 5⟩
  else none

/-- `timedelta(days=30)` with time measured in days. -/
def thirty_days : Int := 30

/-- The reset/rollover block of `check_usage_limit` (main.py lines 73-80):
initialize the reset date on first use, or reset the counter when `now` is
past the stored reset date. -/
def apply_reset (now : Int) (user : UserProfile) : UserProfile :=
  match user.usage_reset_date with
  | some reset =>
    if now > reset then
      { user with usage_count := 0, usage_reset_date := some (now + thirty_days) }
    else user
  | none => { user with usage_reset_date := some (now + thirty_days) }

/-- The two ways `check_usage_limit` can raise: an uncaught `KeyError` from
`TIER_LIMITS[user.subscription_tier]` on an unknown tier, or the
`HTTPException(429)` for an exhausted quota. -/
inductive CheckError where
  | keyError
  | quotaExceeded
deriving DecidableEq

/-- `check_usage_limit` (main.py lines 69-88).  Returns the (possibly
rolled-over) profile together with the remaining quota or the raised error;
the Python function mutates `user` in place, so the caller keeps the first
component even when the second is an error. -/
def check_usage_limit (now : Int) (user : UserProfile) :
    UserProfile × Except CheckError Int :=
  match TIER_LIMITS user.subscription_tier with
  | none => (user, Except.error CheckError.keyError)
  | some tl =>
    let user := apply_reset now user
    if tl.monthly_limit ≠ -1 ∧ user.usage_count ≥ tl.monthly_limit then
      (user, Except.error CheckError.quotaExceeded)
    else
      (user, Except.ok (if tl.monthly_limit ≠ -1 then tl.monthly_limit - user.usage_count else 999))

/-- The sentiment expression of `generate_ai_responses` (main.py line 94). -/
def sentimentOf (rating : Int) : String :=
  if rating ≥ 4 then "positive" else if rating ≤ 2 then "negative" else "neutral"

/-- The fallback response set built in the `json.JSONDecodeError` handler of
`generate_ai_responses` (main.py lines 158-171).  Its arguments are exactly
the data the Python literals read: `review.rating`, `profile.business_name`,
`profile.signature` and the precomputed `sentiment`. -/
def fallbackResponses (rating : Int) (business_name : String)
    (signature : Option String) (sentiment : String) : List JsonVal :=
  let r := toString rating
  let sig := signature.getD ""
  [ JsonVal.obj [("style", JsonVal.str "Short & Sweet"),
      ("text", JsonVal.str
        ("Thank you for your " ++ r ++ "-star review! We appreciate your feedback. " ++ sig))],
    JsonVal.obj [("style", JsonVal.str "Detailed & Personal"),
      ("text", JsonVal.str
        ("Thank you for taking the time to share your experience at " ++ business_name ++
         ". We\x27re " ++
         (if sentiment = "positive" then "thrilled"
          else "sorry to hear about your experience and would love to make it right") ++
         ". " ++ sig))],
    JsonVal.obj [("style", JsonVal.str "Professional & Branded"),
      ("text", JsonVal.str
        ("We appreciate your feedback. " ++
         (if sentiment = "positive" then
            "Your satisfaction is our priority and we hope to see you again soon!"
          else
            "We take all feedback seriously and would love the opportunity to improve. Please contact us directly.") ++
         " " ++ sig))] ]

/-- Outcome of the Anthropic provider call (main.py lines 132-147):
`success` carries `message.content[0].text`; `failure` carries the message of
any exception other than a JSON parse error. -/
inductive ProviderResult where
  | success (text : String)
  | failure (msg : String)
deriving DecidableEq

/-- The fence-stripping of the raw provider text (main.py line 150). -/
def stripFences (s : String) : String :=
  ((s.replace "```json" "").replace "```" "").trim

/-- `generate_ai_responses` (main.py lines 90-174), with the provider call and
`json.loads` abstracted as arguments.  On success it returns the raw value of
`parsed.get("responses", [])`; a `JSONDecodeError` (`jsonParse _ = none`)
yields the fallback set; a provider failure — or the `AttributeError` raised
by `.get` when the parsed document is not an object — is re-raised as the
`HTTPException(500)` of the final handler, modelled as `Except.error`. -/
def generate_ai_responses (jsonParse : String → Option JsonVal)
    (provider : ProviderResult) (review : ReviewInput) (profile : UserProfile) :
    Except String JsonVal :=
  let sentiment := sentimentOf review.rating
  match provider with
  | ProviderResult.failure msg => Except.error msg
  | ProviderResult.success response_text =>
    let clean_text := stripFences response_text
    match jsonParse clean_text with
    | none =>
      Except.ok (JsonVal.arr
        (fallbackResponses review.rating profile.business_name profile.signature sentiment))
    | some parsed =>
      match parsed with
      | JsonVal.obj fields => Except.ok ((fields.lookup "responses").getD (JsonVal.arr []))
      | _ => Except.error "AttributeError"

/-- The HTTP-visible errors of the `/api/generate` and `/api/upgrade`
endpoints: 404, uncaught `KeyError` (500), 429, 400, and the
`AI generation failed` 500. -/
inductive ApiError where
  | notFound
  | keyError
  | quotaExceeded
  | invalidTier
  | generationFailed (msg : String)
deriving DecidableEq

/-- `ResponseOutput` (main.py lines 46-48); `responses` keeps the raw value
the generator produced. -/
structure ResponseOutput where
  responses : JsonVal
  usage_remaining : Int

/-- The `/api/generate` endpoint `generate_responses` (main.py lines 212-235)
for one user.  `stored` is the current `users_db` entry; the first component
of the result is that entry after the call.  The Python handler builds a fresh
`UserProfile` copy, runs the quota check on it, generates, and only then
writes the incremented copy back — so on any raised exception the stored
entry is unchanged. -/
def generate_responses (jsonParse : String → Option JsonVal)
    (provider : ProviderResult) (now : Int) (review : ReviewInput)
    (stored : Option UserProfile) :
    Option UserProfile × Except ApiError ResponseOutput :=
  match stored with
  | none => (none, Except.error ApiError.notFound)
  | some profile_data =>
    match check_usage_limit now profile_data with
    | (_, Except.error CheckError.keyError) =>
      (some profile_data, Except.error ApiError.keyError)
    | (_, Except.error CheckError.quotaExceeded) =>
      (some profile_data, Except.error ApiError.quotaExceeded)
    | (profile, Except.ok remaining) =>
      match generate_ai_responses jsonParse provider review profile with
      | Except.error msg => (some profile_data, Except.error (ApiError.generationFailed msg))
      | Except.ok responses =>
        (some { profile with usage_count := profile.usage_count + 1 },
         Except.ok { responses := responses, usage_remaining := remaining - 1 })

/-- The `/api/upgrade` endpoint `upgrade_subscription` (main.py lines 253-268)
for one user: 400 on an unknown tier, 404 on a missing user, otherwise store
the new tier and return its monthly limit. -/
def upgrade_subscription (tier : String) (stored : Option UserProfile) :
    Option UserProfile × Except ApiError Int :=
  match TIER_LIMITS tier with
  | none => (stored, Except.error ApiError.invalidTier)
  | some tl =>
    match stored with
    | none => (none, Except.error ApiError.notFound)
    | some p => (some { p with subscription_tier := tier }, Except.ok tl.monthly_limit)

/-- The `"style"` entry of each response object, for stating which styles a
response list carries. -/
def styleLabels (rs : List JsonVal) : List (Option JsonVal) :=
  rs.map fun j =>
    match j with
    | JsonVal.obj fields => fields.lookup "style"
    | _ => none

/-! ## Sample data for concrete instantiations -/

/-- A free-tier profile whose reset date (day 100) is in the future of the
"now" used in the concrete instantiations (day 50). -/
def sampleProfile : UserProfile :=
  { user_id := "u1", business_name := "Blue Bottle", business_type := "cafe",
    tone := "friendly", brand_voice := none, signature := some "- The Team",
    subscription_tier := "free", usage_count := 0, usage_reset_date := some 100 }

/-- A concrete review. -/
def sampleReview : ReviewInput :=
  { review_text := "Great coffee!", rating := 5, reviewer_name := some "Ana",
    platform := "google", context := none }

/-- A free-tier profile whose reset date (day 0) lies before "now" = day 10. -/
def staleProfile : UserProfile :=
  { sampleProfile with usage_count := 5, usage_reset_date := some 0 }

/-! ## Helper lemmas -/

/-- The rollover block never touches the business identity fields. -/
theorem apply_reset_preserves (now : Int) (p : UserProfile) :
    (apply_reset now p).business_name = p.business_name ∧
    (apply_reset now p).signature = p.signature := by
  unfold apply_reset
  cases hp : p.usage_reset_date with
  | none => exact ⟨rfl, rfl⟩
  | some t =>
    dsimp only
    split <;> exact ⟨rfl, rfl⟩

/-- `check_usage_limit` never touches the business identity fields of the
profile it returns. -/
theorem check_usage_limit_preserves (now : Int) (p : UserProfile) :
    ((check_usage_limit now p).1).business_name = p.business_name ∧
    ((check_usage_limit now p).1).signature = p.signature := by
  unfold check_usage_limit
  cases h : TIER_LIMITS p.subscription_tier with
  | none => exact ⟨rfl, rfl⟩
  | some tl =>
    dsimp only
    split <;> exact apply_reset_preserves now p

/-- When the tier is known, the profile returned by `check_usage_limit` is
exactly the rolled-over profile. -/
theorem check_usage_limit_fst (now : Int) (p : UserProfile) (tl : TierLimit)
    (htier : TIER_LIMITS p.subscription_tier = some tl) :
    (check_usage_limit now p).1 = apply_reset now p := by
  unfold check_usage_limit
  rw [htier]
  dsimp only
  split <;> rfl

/-- The only rows of the tier table. -/
theorem tier_limit_cases (s : String) (tl : TierLimit)
    (h : TIER_LIMITS s = some tl) :
    tl.monthly_limit = 10 ∨ tl.monthly_limit = 500 ∨ tl.monthly_limit = -1 := by
  unfold TIER_LIMITS at h
  by_cases h1 : s = "free"
  · rw [if_pos h1] at h
    exact Or.inl (by rw [← Option.some.inj h])
  rw [if_neg h1] at h
  by_cases h2 : s = "pro"
  · rw [if_pos h2] at h
    exact Or.inr (Or.inl (by rw [← Option.some.inj h]))
  rw [if_neg h2] at h
  by_cases h3 : s = "enterprise"
  · rw [if_pos h3] at h
    exact Or.inr (Or.inr (by rw [← Option.some.inj h]))
  rw [if_neg h3] at h
  exact absurd h (by simp)

/-- Whenever the `/api/generate` handler raises, the stored profile is left
exactly as it was (the write-back at main.py line 230 is never reached). -/
theorem generate_responses_error_fst (jsonParse : String → Option JsonVal)
    (provider : ProviderResult) (now : Int) (review : ReviewInput)
    (stored : Option UserProfile) (e : ApiError)
    (h : (generate_responses jsonParse provider now review stored).2 = Except.error e) :
    (generate_responses jsonParse provider now review stored).1 = stored := by
  unfold generate_responses at h ⊢
  cases stored with
  | none => rfl
  | some p =>
    dsimp only at h ⊢
    rcases hc : check_usage_limit now p with ⟨p2, r⟩
    cases r with
    | error ce =>
      cases ce <;> rfl
    | ok rem =>
      dsimp only at h ⊢
      cases hg : generate_ai_responses jsonParse provider review p2 with
      | error msg => rfl
      | ok rs =>
        rw [hc] at h
        dsimp only at h
        rw [hg] at h
        simp at h

/-! ## Claim theorems -/

/-- C2: for every integer rating `r`, the sentiment computed at main.py line
94 is `"positive"` if `r ≥ 4`, `"negative"` if `r ≤ 2`, and `"neutral"` if
`r = 3`; being a total function of `r`, the classification is deterministic
also outside 1–5. -/
theorem sentiment_classification (r : Int) :
    (r ≥ 4 → sentimentOf r = "positive") ∧
    (r ≤ 2 → sentimentOf r = "negative") ∧
    (r = 3 → sentimentOf r = "neutral") := by
  refine ⟨fun h => ?_, fun h => ?_, fun h => ?_⟩
  · unfold sentimentOf
    rw [if_pos h]
  · unfold sentimentOf
    rw [if_neg (by omega), if_pos h]
  · unfold sentimentOf
    rw [if_neg (by omega), if_neg (by omega)]

/-- Witness for C2 at ratings 7, -1 and 3. -/
theorem sentiment_classification_wit :
    sentimentOf 7 = "positive" ∧ sentimentOf (-1) = "negative" ∧
    sentimentOf 3 = "neutral" :=
  ⟨(sentiment_classification 7).1 (by decide),
   (sentiment_classification (-1)).2.1 (by decide),
   (sentiment_classification 3).2.2 rfl⟩

/-- C3: when the tier's quota is finite and the (rolled-over) usage count has
reached it, `check_usage_limit` raises the 429 `QuotaExceededError`; the
`/api/generate` handler then fails with that error for every possible
provider behaviour — so generation is never invoked — and the stored profile
(hence its usage count) is unchanged. -/
theorem quota_exceeded_blocks (jsonParse : String → Option JsonVal)
    (provider : ProviderResult) (now : Int) (review : ReviewInput)
    (p : UserProfile) (tl : TierLimit)
    (htier : TIER_LIMITS p.subscription_tier = some tl)
    (hfin : tl.monthly_limit ≠ -1)
    (hcount : (apply_reset now p).usage_count ≥ tl.monthly_limit) :
    (check_usage_limit now p).2 = Except.error CheckError.quotaExceeded ∧
    generate_responses jsonParse provider now review (some p) =
      (some p, Except.error ApiError.quotaExceeded) := by
  have hc : check_usage_limit now p =
      (apply_reset now p, Except.error CheckError.quotaExceeded) := by
    unfold check_usage_limit
    rw [htier]
    dsimp only
    rw [if_pos ⟨hfin, hcount⟩]
  refine ⟨by rw [hc], ?_⟩
  unfold generate_responses
  dsimp only
  rw [hc]

/-- Witness for C3: a free-tier profile with `usage_count = 10` (reset date
day 100, now day 50, so no rollover) is rejected with the quota error and the
store keeps `usage_count = 10`. -/
theorem quota_exceeded_blocks_wit :
    (check_usage_limit 50 { sampleProfile with usage_count := 10 }).2 =
      Except.error CheckError.quotaExceeded ∧
    generate_responses (fun _ => none) (ProviderResult.failure "down") 50 sampleReview
        (some { sampleProfile with usage_count := 10 }) =
      (some { sampleProfile with usage_count := 10 },
       Except.error ApiError.quotaExceeded) :=
  quota_exceeded_blocks (fun _ => none) (ProviderResult.failure "down") 50 sampleReview
    { sampleProfile with usage_count := 10 } ⟨10, 3⟩ rfl (by decide) (by decide)

/-- C4: when the provider call itself fails (any exception other than a JSON
parse failure), `generate_ai_responses` re-raises it as the 500
`GenerationFailedError`; no fallback set is produced and the stored profile —
in particular its usage count — is unchanged. -/
theorem provider_failure_propagates (jsonParse : String → Option JsonVal)
    (msg : String) (now : Int) (review : ReviewInput) (p p2 : UserProfile)
    (rem : Int)
    (hcheck : check_usage_limit now p = (p2, Except.ok rem)) :
    generate_ai_responses jsonParse (ProviderResult.failure msg) review p2 =
      Except.error msg ∧
    generate_responses jsonParse (ProviderResult.failure msg) now review (some p) =
      (some p, Except.error (ApiError.generationFailed msg)) := by
  refine ⟨rfl, ?_⟩
  unfold generate_responses
  dsimp only
  rw [hcheck]
  rfl

/-- Witness for C4 at a concrete profile and provider failure message. -/
theorem provider_failure_propagates_wit :
    generate_ai_responses (fun _ => none) (ProviderResult.failure "timeout")
      sampleReview sampleProfile = Except.error "timeout" ∧
    generate_responses (fun _ => none) (ProviderResult.failure "timeout") 50
        sampleReview (some sampleProfile) =
      (some sampleProfile, Except.error (ApiError.generationFailed "timeout")) :=
  provider_failure_propagates (fun _ => none) "timeout" 50 sampleReview
    sampleProfile sampleProfile 10 rfl

/-- C7: the tier table maps free to (10, 3), pro to (500, 3) and enterprise
to (-1 = unlimited, 5); it is a pure function; every other tier string is
absent from it, and the `/api/upgrade` endpoint rejects such a tier with the
400 `Invalid tier` error, leaving the stored profile unchanged. -/
theorem tier_policy_table (stored : Option UserProfile) (t : String)
    (h1 : t ≠ "free") (h2 : t ≠ "pro") (h3 : t ≠ "enterprise") :
    TIER_LIMITS "free" = some ⟨10, 3⟩ ∧
    TIER_LIMITS "pro" = some ⟨500, 3⟩ ∧
    TIER_LIMITS "enterprise" = some ⟨-1, 5⟩ ∧
    TIER_LIMITS t = none ∧
    upgrade_subscription t stored = (stored, Except.error ApiError.invalidTier) := by
  have hnone : TIER_LIMITS t = none := by
    unfold TIER_LIMITS
    rw [if_neg h1, if_neg h2, if_neg h3]
  refine ⟨rfl, rfl, rfl, hnone, ?_⟩
  unfold upgrade_subscription
  rw [hnone]

/-- Witness for C7: upgrading to `"platinum"` fails with the invalid-tier
error and the stored profile is untouched. -/
theorem tier_policy_table_wit :
    TIER_LIMITS "free" = some ⟨10, 3⟩ ∧
    TIER_LIMITS "pro" = some ⟨500, 3⟩ ∧
    TIER_LIMITS "enterprise" = some ⟨-1, 5⟩ ∧
    TIER_LIMITS "platinum" = none ∧
    upgrade_subscription "platinum" (some sampleProfile) =
      (some sampleProfile, Except.error ApiError.invalidTier) :=
  tier_policy_table (some sampleProfile) "platinum" (by decide) (by decide) (by decide)

/-- C1: when the quota check passes and the provider text does not parse
(`jsonParse … = none` models `json.JSONDecodeError`), the request succeeds
with exactly the 3 fallback entries — styles `Short & Sweet`,
`Detailed & Personal`, `Professional & Branded` — built from the review's
rating, the profile's business name and signature, and the sentiment alone
(the arguments of `fallbackResponses`), and the stored usage count is the
checked profile's count plus 1. -/
theorem parse_failure_fallback (jsonParse : String → Option JsonVal)
    (t : String) (now : Int) (review : ReviewInput) (p p2 : UserProfile)
    (rem : Int)
    (hcheck : check_usage_limit now p = (p2, Except.ok rem))
    (hparse : jsonParse (stripFences t) = none) :
    generate_responses jsonParse (ProviderResult.success t) now review (some p) =
      (some { p2 with usage_count := p2.usage_count + 1 },
       Except.ok
         { responses := JsonVal.arr (fallbackResponses review.rating
             p.business_name p.signature (sentimentOf review.rating)),
           usage_remaining := rem - 1 }) ∧
    (fallbackResponses review.rating p.business_name p.signature
      (sentimentOf review.rating)).length = 3 ∧
    styleLabels (fallbackResponses review.rating p.business_name p.signature
        (sentimentOf review.rating)) =
      [some (JsonVal.str "Short & Sweet"), some (JsonVal.str "Detailed & Personal"),
       some (JsonVal.str "Professional & Branded")] := by
  have hfst : (check_usage_limit now p).1 = p2 := by rw [hcheck]
  have hb : p2.business_name = p.business_name := by
    rw [← hfst]
    exact (check_usage_limit_preserves now p).1
  have hs : p2.signature = p.signature := by
    rw [← hfst]
    exact (check_usage_limit_preserves now p).2
  have hg : generate_ai_responses jsonParse (ProviderResult.success t) review p2 =
      Except.ok (JsonVal.arr (fallbackResponses review.rating p.business_name
        p.signature (sentimentOf review.rating))) := by
    unfold generate_ai_responses
    dsimp only
    rw [hparse, hb, hs]
  refine ⟨?_, rfl, rfl⟩
  unfold generate_responses
  dsimp only
  rw [hcheck]
  dsimp only
  rw [hg]

/-- Witness for C1: unparseable provider text on a fresh free-tier profile
yields the 3 concrete fallback entries and bumps the stored count to 1. -/
theorem parse_failure_fallback_wit :
    generate_responses (fun _ => none) (ProviderResult.success "oops") 50
        sampleReview (some sampleProfile) =
      (some { sampleProfile with usage_count := 1 },
       Except.ok
         { responses := JsonVal.arr (fallbackResponses sampleReview.rating
             sampleProfile.business_name sampleProfile.signature
             (sentimentOf sampleReview.rating)),
           usage_remaining := 9 }) ∧
    (fallbackResponses sampleReview.rating sampleProfile.business_name
      sampleProfile.signature (sentimentOf sampleReview.rating)).length = 3 ∧
    styleLabels (fallbackResponses sampleReview.rating sampleProfile.business_name
        sampleProfile.signature (sentimentOf sampleReview.rating)) =
      [some (JsonVal.str "Short & Sweet"), some (JsonVal.str "Detailed & Personal"),
       some (JsonVal.str "Professional & Branded")] :=
  parse_failure_fallback (fun _ => none) "oops" 50 sampleReview sampleProfile
    sampleProfile 10 rfl rfl

/-- C5: with a known tier, one call to `check_usage_limit`: (a) on a profile
with no reset timestamp, sets it to now + 30 days without changing the usage
count; (b) on a profile whose reset timestamp lies strictly in the past,
resets the count to 0 and sets the reset timestamp to exactly now + 30 days. -/
theorem reset_initialization_and_rollover (now : Int) (p : UserProfile)
    (tl : TierLimit) (htier : TIER_LIMITS p.subscription_tier = some tl) :
    (p.usage_reset_date = none →
      (check_usage_limit now p).1.usage_reset_date = some (now + thirty_days) ∧
      (check_usage_limit now p).1.usage_count = p.usage_count) ∧
    (∀ t, p.usage_reset_date = some t → t < now →
      (check_usage_limit now p).1.usage_count = 0 ∧
      (check_usage_limit now p).1.usage_reset_date = some (now + thirty_days)) := by
  have hfst : (check_usage_limit now p).1 = apply_reset now p :=
    check_usage_limit_fst now p tl htier
  constructor
  · intro h
    rw [hfst]
    unfold apply_reset
    rw [h]
    exact ⟨rfl, rfl⟩
  · intro t h hlt
    rw [hfst]
    unfold apply_reset
    rw [h]
    dsimp only
    rw [if_pos (by omega : now > t)]
    exact ⟨rfl, rfl⟩

/-- Witness for C5: first-use initialization at now = 50 on a profile without
a reset date, and rollover at now = 50 on a profile whose reset date is day
20. -/
theorem reset_initialization_and_rollover_wit :
    ((check_usage_limit 50 { sampleProfile with usage_reset_date := none }).1.usage_reset_date =
        some (50 + thirty_days) ∧
      (check_usage_limit 50 { sampleProfile with usage_reset_date := none }).1.usage_count =
        { sampleProfile with usage_reset_date := none }.usage_count) ∧
    ((check_usage_limit 50 { sampleProfile with usage_reset_date := some 20 }).1.usage_count = 0 ∧
      (check_usage_limit 50 { sampleProfile with usage_reset_date := some 20 }).1.usage_reset_date =
        some (50 + thirty_days)) :=
  ⟨(reset_initialization_and_rollover 50
      { sampleProfile with usage_reset_date := none } ⟨10, 3⟩ rfl).1 rfl,
   (reset_initialization_and_rollover 50
      { sampleProfile with usage_reset_date := some 20 } ⟨10, 3⟩ rfl).2 20 rfl (by decide)⟩

/-- C8: when `check_usage_limit` passes, the remaining quota it returns is
exactly `monthly_limit - usage_count` of the (rolled-over) profile for a
finite quota — hence never below the true difference — and the sentinel 999
for the unlimited (-1) quota. -/
theorem remaining_quota (now : Int) (p p2 : UserProfile) (rem : Int)
    (tl : TierLimit)
    (htier : TIER_LIMITS p.subscription_tier = some tl)
    (hok : check_usage_limit now p = (p2, Except.ok rem)) :
    (tl.monthly_limit ≠ -1 →
      rem = tl.monthly_limit - p2.usage_count ∧
      tl.monthly_limit - p2.usage_count ≤ rem) ∧
    (tl.monthly_limit = -1 → rem = 999) := by
  unfold check_usage_limit at hok
  rw [htier] at hok
  dsimp only at hok
  by_cases hc : tl.monthly_limit ≠ -1 ∧ (apply_reset now p).usage_count ≥ tl.monthly_limit
  · rw [if_pos hc] at hok
    exact absurd (congrArg Prod.snd hok) (by simp)
  · rw [if_neg hc] at hok
    have h1 : apply_reset now p = p2 := congrArg Prod.fst hok
    have h3 : (if tl.monthly_limit ≠ -1 then
        tl.monthly_limit - (apply_reset now p).usage_count else 999) = rem :=
      Except.ok.inj (congrArg Prod.snd hok)
    constructor
    · intro hfin
      rw [← h3, if_pos hfin, h1]
      exact ⟨rfl, le_refl _⟩
    · intro hinf
      rw [← h3, if_neg (fun hne => hne hinf)]

/-- Witness for C8: the free profile (quota 10, count 0) gets remaining 10 =
10 - 0; the same profile on the enterprise tier gets the sentinel 999. -/
theorem remaining_quota_wit :
    ((10 : Int) = 10 - sampleProfile.usage_count ∧
      (10 : Int) - sampleProfile.usage_count ≤ 10) ∧
    (999 : Int) = 999 :=
  ⟨(remaining_quota 50 sampleProfile sampleProfile 10 ⟨10, 3⟩ rfl rfl).1 (by decide),
   (remaining_quota 50
      { sampleProfile with subscription_tier := "enterprise" }
      { sampleProfile with subscription_tier := "enterprise" } 999 ⟨-1, 5⟩ rfl rfl).2 rfl⟩

/-- C9: the fallback path is a deterministic function of the review's rating
and the profile's business name and signature — two invocations of
`generate_ai_responses` whose provider text fails to parse produce identical
response sets whenever those three inputs coincide (sentiment is itself
computed from the rating). -/
theorem fallback_deterministic (jp1 jp2 : String → Option JsonVal)
    (t1 t2 : String) (r1 r2 : ReviewInput) (p1 p2 : UserProfile)
    (hp1 : jp1 (stripFences t1) = none) (hp2 : jp2 (stripFences t2) = none)
    (hr : r1.rating = r2.rating) (hb : p1.business_name = p2.business_name)
    (hs : p1.signature = p2.signature) :
    generate_ai_responses jp1 (ProviderResult.success t1) r1 p1 =
    generate_ai_responses jp2 (ProviderResult.success t2) r2 p2 := by
  have h1 : generate_ai_responses jp1 (ProviderResult.success t1) r1 p1 =
      Except.ok (JsonVal.arr (fallbackResponses r1.rating p1.business_name
        p1.signature (sentimentOf r1.rating))) := by
    unfold generate_ai_responses
    dsimp only
    rw [hp1]
  have h2 : generate_ai_responses jp2 (ProviderResult.success t2) r2 p2 =
      Except.ok (JsonVal.arr (fallbackResponses r2.rating p2.business_name
        p2.signature (sentimentOf r2.rating))) := by
    unfold generate_ai_responses
    dsimp only
    rw [hp2]
  rw [h1, h2, hr, hb, hs]

/-- Witness for C9: two invocations with different provider texts, review
texts and tones but the same rating, business name and signature give the
same result. -/
theorem fallback_deterministic_wit :
    generate_ai_responses (fun _ => none) (ProviderResult.success "aaa")
      sampleReview sampleProfile =
    generate_ai_responses (fun _ => none) (ProviderResult.success "bbb")
      { sampleReview with review_text := "Loved it." }
      { sampleProfile with tone := "formal" } :=
  fallback_deterministic (fun _ => none) (fun _ => none) "aaa" "bbb"
    sampleReview { sampleReview with review_text := "Loved it." }
    sampleProfile { sampleProfile with tone := "formal" }
    rfl rfl rfl rfl rfl

/-- C10: when the provider text parses to a JSON object without a
`"responses"` key, `parsed.get("responses", [])` makes the generator return
the empty list — not the fallback set and not an error — the request counts
as a success, the stored usage count is incremented, and the client receives
an empty responses array. -/
theorem missing_responses_key (jsonParse : String → Option JsonVal)
    (t : String) (now : Int) (review : ReviewInput) (p p2 : UserProfile)
    (rem : Int) (fields : List (String × JsonVal))
    (hcheck : check_usage_limit now p = (p2, Except.ok rem))
    (hparse : jsonParse (stripFences t) = some (JsonVal.obj fields))
    (hnokey : fields.lookup "responses" = none) :
    generate_ai_responses jsonParse (ProviderResult.success t) review p2 =
      Except.ok (JsonVal.arr []) ∧
    generate_responses jsonParse (ProviderResult.success t) now review (some p) =
      (some { p2 with usage_count := p2.usage_count + 1 },
       Except.ok { responses := JsonVal.arr [], usage_remaining := rem - 1 }) := by
  have hg : generate_ai_responses jsonParse (ProviderResult.success t) review p2 =
      Except.ok (JsonVal.arr []) := by
    unfold generate_ai_responses
    dsimp only
    rw [hparse]
    dsimp only
    rw [hnokey]
    rfl
  refine ⟨hg, ?_⟩
  unfold generate_responses
  dsimp only
  rw [hcheck]
  dsimp only
  rw [hg]

/-- Witness for C10: a provider document parsing to the empty JSON object
yields an empty responses array and the stored count goes from 0 to 1. -/
theorem missing_responses_key_wit :
    generate_ai_responses (fun _ => some (JsonVal.obj []))
      (ProviderResult.success "{}") sampleReview sampleProfile =
      Except.ok (JsonVal.arr []) ∧
    generate_responses (fun _ => some (JsonVal.obj []))
        (ProviderResult.success "{}") 50 sampleReview (some sampleProfile) =
      (some { sampleProfile with usage_count := 1 },
       Except.ok { responses := JsonVal.arr [], usage_remaining := 9 }) :=
  missing_responses_key (fun _ => some (JsonVal.obj [])) "{}" 50 sampleReview
    sampleProfile sampleProfile 10 [] rfl rfl rfl

/-- C6 counterexample: `staleProfile` has its reset date (day 0) in the past
of now = day 10, the request fails (provider failure after a successful quota
check), yet the stored entry is returned unchanged — still count 5 and reset
day 0 — and differs from the rolled-over profile the claim says should have
been persisted: the rollover does NOT persist in the account store when the
request fails. -/
theorem rollover_lost_on_failure_cex :
    staleProfile.usage_reset_date = some 0 ∧ (0 : Int) < 10 ∧
    (generate_responses (fun _ => none) (ProviderResult.failure "network down") 10
        sampleReview (some staleProfile)).2 =
      Except.error (ApiError.generationFailed "network down") ∧
    (generate_responses (fun _ => none) (ProviderResult.failure "network down") 10
        sampleReview (some staleProfile)).1 = some staleProfile ∧
    some staleProfile ≠
      some { staleProfile with usage_count := 0,
                               usage_reset_date := some (10 + thirty_days) } :=
  ⟨rfl, by decide, rfl, rfl, by decide⟩

/-- C6 amended: the rollover performed by `check_usage_limit` does NOT
persist in the account store when the request subsequently fails — the store
is written only after a successful generation — and moreover, once a
past-reset-date profile has been rolled over, the quota check in that same
call can never fail with the quota error (the count is 0 and every finite
quota in the table is positive). -/
theorem rollover_not_persisted_on_failure (jsonParse : String → Option JsonVal)
    (provider : ProviderResult) (now t : Int) (review : ReviewInput)
    (p : UserProfile) (tl : TierLimit) (e : ApiError)
    (hreset : p.usage_reset_date = some t) (hpast : t < now)
    (htier : TIER_LIMITS p.subscription_tier = some tl)
    (herr : (generate_responses jsonParse provider now review (some p)).2 =
      Except.error e) :
    (check_usage_limit now p).2 ≠ Except.error CheckError.quotaExceeded ∧
    (generate_responses jsonParse provider now review (some p)).1 = some p := by
  have hroll : (apply_reset now p).usage_count = 0 := by
    unfold apply_reset
    rw [hreset]
    dsimp only
    rw [if_pos (by omega : now > t)]
  have hcases := tier_limit_cases _ _ htier
  constructor
  · unfold check_usage_limit
    rw [htier]
    dsimp only
    rw [if_neg ?hcond]
    · exact fun hh => by simp at hh
    case hcond =>
      rintro ⟨hne, hge⟩
      rw [hroll] at hge
      rcases hcases with h | h | h <;> omega
  · exact generate_responses_error_fst jsonParse provider now review (some p) e herr

/-- Witness for C6 amended: at the concrete stale profile and a failing
provider, the quota check does not raise the quota error and the store is
unchanged. -/
theorem rollover_not_persisted_on_failure_wit :
    (check_usage_limit 10 staleProfile).2 ≠ Except.error CheckError.quotaExceeded ∧
    (generate_responses (fun _ => none) (ProviderResult.failure "network down") 10
        sampleReview (some staleProfile)).1 = some staleProfile :=
  rollover_not_persisted_on_failure (fun _ => none)
    (ProviderResult.failure "network down") 10 0 sampleReview staleProfile
    ⟨10, 3⟩ (ApiError.generationFailed "network down") rfl (by decide) rfl rfl
